import Mathlib

/-!
# MeterScience — community verification and trust-scoring engine

A shallow embedding of the core of the MeterScience repository, translated
from `src/api/src/routes/verify.py` (consensus engine, vote ledger,
reputation updater, verification queue selector), `src/api/src/routes/readings.py`
(plausibility filter of `create_reading`) and `src/api/src/models.py`
(data model defaults), together with theorems checking the specification's
claims against these definitions.

Modelling conventions:
* Database rows become Lean structures; the database is a record of lists.
  Row mutation by id (`UPDATE ... WHERE id = ...`) becomes a `List.map`
  that rewrites the matching entries and keeps the rest.
* Python `int` columns become `Int`; Python `float` values that the claims
  depend on (ratios, confidence, numeric meter values) become `ℚ`.  The
  consensus comparisons `ratio >= 0.67` are modelled exactly over `ℚ`;
  this agrees with the source's binary64 comparison whenever the total
  trust weight is below ~10^14 (the nearest double to 0.67 differs from
  67/100 by about 4·10⁻¹⁷, and a quotient of integers with denominator
  below ~10^14 can never fall inside that gap), which covers every vote
  multiset expressible with per-vote weights in [0, 100].
* Enumerated string columns (`vote`, `verification_status`) stay `String`,
  exactly as the source compares them.
* Python truthiness, where the source relies on it, is modelled explicitly:
  `x or 50` maps both `None` and `0` to `50`; `if prev and a and b` treats
  a numeric value of `0` like an absent one.
* An HTTP 4xx `raise` becomes an `Except.error`; every raise in
  `vote_on_reading` happens before the first mutation, so an error leaves
  the database untouched.
* The session is created with `autoflush=False` (`database.py` line 35) and
  `vote_on_reading` never flushes before the vote SELECT inside
  `_check_and_finalize_verification`, so the finalize check reads only the
  previously committed vote rows — the vote being cast is invisible to it.
  Mutations to user and reading rows happen on session-held objects and
  stay visible throughout; the new vote row and the stat bumps are written
  at commit.  `castVote` models this: it runs `checkAndFinalize` on the
  state without the new vote, then commits the new vote row.
-/

namespace MeterScience

/-- The trust-relevant subset of a `users` row (`models.py`, class `User`). -/
structure UserT where
  id : Nat
  trustScore : Int
  xp : Int
  verificationsPerformed : Int
  verifiedReadings : Int
deriving Repr, DecidableEq

/-- The queue-relevant subset of a `meters` row (`models.py`, class `Meter`). -/
structure MeterT where
  id : Nat
  meterType : String
deriving Repr, DecidableEq

/-- The verification-relevant subset of a `readings` row
(`models.py`, class `Reading`). -/
structure ReadingT where
  id : Nat
  meterId : Nat
  userId : Nat
  confidence : ℚ
  verificationStatus : String
  verificationScore : Option ℚ
deriving Repr, DecidableEq

/-- A `verification_votes` row (`models.py`, class `VerificationVote`).
`verifierTrustScore` is the nullable snapshotted trust column. -/
structure VoteT where
  readingId : Nat
  verifierId : Nat
  vote : String
  suggestedValue : Option String
  verifierTrustScore : Option Int
deriving Repr, DecidableEq

/-- The relational store the core reads and writes. -/
structure DB where
  users : List UserT
  meters : List MeterT
  readings : List ReadingT
  votes : List VoteT
deriving Repr, DecidableEq

/-! ## Constants (`verify.py` lines 24–27, `models.py` line 38) -/

/-- `VOTES_REQUIRED = 3` -/
def VOTES_REQUIRED : Nat := 3

/-- `CONSENSUS_THRESHOLD = 0.67` -/
def CONSENSUS_THRESHOLD : ℚ := 67 / 100

/-- `XP_FOR_VERIFICATION = 5` -/
def XP_FOR_VERIFICATION : Int := 5

/-- `XP_BONUS_CONSENSUS = 10` -/
def XP_BONUS_CONSENSUS : Int := 10

/-- `User.trust_score` column default (`models.py`: `default=50`). -/
def defaultTrustScore : Int := 50

/-! ## Row access and row update -/

/-- `SELECT * FROM verification_votes WHERE reading_id = rid`. -/
def votesFor (db : DB) (rid : Nat) : List VoteT :=
  db.votes.filter (fun v => v.readingId == rid)

/-- Number of votes on a reading. -/
def voteCount (db : DB) (rid : Nat) : Nat :=
  (votesFor db rid).length

/-- `SELECT ... WHERE Reading.id == reading_id`, `scalar_one_or_none`. -/
def findReading (db : DB) (rid : Nat) : Option ReadingT :=
  db.readings.find? (fun r => r.id == rid)

/-- `SELECT ... WHERE User.id == uid`, `scalar_one_or_none`. -/
def findUser (db : DB) (uid : Nat) : Option UserT :=
  db.users.find? (fun u => u.id == uid)

/-- `SELECT ... WHERE Meter.id == mid`. -/
def findMeter (db : DB) (mid : Nat) : Option MeterT :=
  db.meters.find? (fun m => m.id == mid)

/-- Mutate the user row(s) with the given id, keep all others. -/
def updateUser (users : List UserT) (uid : Nat) (f : UserT → UserT) : List UserT :=
  users.map (fun u => if u.id == uid then f u else u)

/-- Mutate the reading row(s) with the given id, keep all others. -/
def updateReadingRow (readings : List ReadingT) (rid : Nat) (f : ReadingT → ReadingT) :
    List ReadingT :=
  readings.map (fun r => if r.id == rid then f r else r)

/-- Does a vote by `uid` on reading `rid` exist? (`verify.py` lines 250–258). -/
def hasVoted (db : DB) (rid uid : Nat) : Bool :=
  db.votes.any (fun v => v.readingId == rid && v.verifierId == uid)

/-! ## Consensus engine (`verify.py`, `_check_and_finalize_verification`) -/

/-- `weight = vote.verifier_trust_score or 50` (`verify.py` line 504).
Python `or` replaces both `None` and `0` by the default `50`. -/
def voteWeight (v : VoteT) : Int :=
  match v.verifierTrustScore with
  | none => 50
  | some t => if t == 0 then 50 else t

/-- `total_weight = Σ weight` over all votes (`verify.py` lines 499–509). -/
def totalWeight (votes : List VoteT) : Int :=
  (votes.map voteWeight).sum

/-- `weighted_correct` / `weighted_incorrect`: sum of weights of the votes
with the given value (`verify.py` lines 506–509). -/
def weightedFor (value : String) (votes : List VoteT) : Int :=
  ((votes.filter (fun v => v.vote == value)).map voteWeight).sum

/-- `correct_ratio = weighted_correct / total_weight` (`verify.py` line 515). -/
def ratioCorrect (votes : List VoteT) : ℚ :=
  (weightedFor "correct" votes : ℚ) / (totalWeight votes : ℚ)

/-- `incorrect_ratio = weighted_incorrect / total_weight` (`verify.py` line 516). -/
def ratioIncorrect (votes : List VoteT) : ℚ :=
  (weightedFor "incorrect" votes : ℚ) / (totalWeight votes : ℚ)

/-- The decision ladder of `verify.py` lines 518–529: the chosen
`(new_status, winning_vote)`, or `none` to remain pending. -/
def finalizeDecision (votes : List VoteT) : Option (String × Option String) :=
  if ratioCorrect votes ≥ CONSENSUS_THRESHOLD then some ("verified", some "correct")
  else if ratioIncorrect votes ≥ CONSENSUS_THRESHOLD then some ("rejected", some "incorrect")
  else if votes.length ≥ VOTES_REQUIRED * 2 then some ("disputed", none)
  else none

/-- One iteration of the reputation loop body applied to a single user row
(`verify.py` lines 549–566), given that this vote targets this user. -/
def repVoteEffect (winningVote : String) (v : VoteT) (u : UserT) : UserT :=
  if v.vote == winningVote then
    { u with xp := u.xp + XP_BONUS_CONSENSUS,
             trustScore := min 100 (u.trustScore + 1) }
  else if v.vote != "unclear" then
    { u with trustScore := max 0 (u.trustScore - 1) }
  else u

/-- One iteration of the reputation loop (`verify.py` lines 549–566):
branch on the vote value, then mutate the voter row if it exists. -/
def applyVoteReputation (winningVote : String) (users : List UserT) (v : VoteT) :
    List UserT :=
  if v.vote == winningVote then
    updateUser users v.verifierId (fun u =>
      { u with xp := u.xp + XP_BONUS_CONSENSUS,
               trustScore := min 100 (u.trustScore + 1) })
  else if v.vote != "unclear" then
    updateUser users v.verifierId (fun u =>
      { u with trustScore := max 0 (u.trustScore - 1) })
  else users

/-- The full reputation fan-out: `for vote in votes: ...`
(`verify.py` lines 548–566). -/
def applyReputationUpdates (winningVote : String) (votes : List VoteT)
    (users : List UserT) : List UserT :=
  votes.foldl (applyVoteReputation winningVote) users

/-- The mutation block of `verify.py` lines 531–566, entered once a decision
was made: set the reading's status and score, bump the owner's stats when
verified, and run the reputation fan-out when a winning side exists. -/
def applyFinalization (db : DB) (rid : Nat) (votes : List VoteT)
    (newStatus : String) (winningVote : Option String) : DB :=
  let readings := updateReadingRow db.readings rid (fun r =>
    { r with verificationStatus := newStatus,
             verificationScore := some (max (ratioCorrect votes) (ratioIncorrect votes)) })
  let users1 :=
    match findReading db rid with
    | some r =>
        if newStatus == "verified" then
          updateUser db.users r.userId (fun u =>
            { u with verifiedReadings := u.verifiedReadings + 1, xp := u.xp + 5 })
        else db.users
    | none => db.users
  let users2 :=
    match winningVote with
    | some w => applyReputationUpdates w votes users1
    | none => users1
  { db with readings := readings, users := users2 }

/-- `_check_and_finalize_verification` (`verify.py` lines 479–566). -/
def checkAndFinalize (db : DB) (rid : Nat) : DB :=
  let votes := votesFor db rid
  if votes.length < VOTES_REQUIRED then db
  else if totalWeight votes == 0 then db
  else
    match finalizeDecision votes with
    | none => db
    | some (st, w) => applyFinalization db rid votes st w

/-! ## Vote ledger (`verify.py`, `vote_on_reading`) -/

/-- The request body of the vote endpoint (`verify.py`, class `VoteCreate`). -/
structure VoteCreate where
  vote : String
  suggestedValue : Option String
deriving Repr, DecidableEq

/-- The five distinct failure kinds of `vote_on_reading`, one per `raise`
site, in source order. -/
inductive VoteError where
  | invalidVote
  | missingSuggestedValue
  | readingNotFound
  | cannotVerifyOwnReading
  | alreadyVoted
deriving Repr, DecidableEq

/-- The HTTP status code each raise site uses. -/
def VoteError.httpStatus : VoteError → Nat
  | .invalidVote => 400
  | .missingSuggestedValue => 400
  | .readingNotFound => 404
  | .cannotVerifyOwnReading => 403
  | .alreadyVoted => 400

/-- `valid_votes = ["correct", "incorrect", "unclear"]` (`verify.py` line 216). -/
def validVotes : List String := ["correct", "incorrect", "unclear"]

/-- `not vote_data.suggested_value` (`verify.py` line 224): Python falsiness,
true for `None` and for the empty string. -/
def suggestedMissing (s : Option String) : Bool :=
  match s with
  | none => true
  | some str => str.isEmpty

/-- `vote_on_reading` (`verify.py` lines 199–284): the five checks in source
order, then the vote insert (pending until commit), the verifier stat
bumps, and the finalize check.  The session has `autoflush=False`
(`database.py` line 35) and nothing flushes before the vote SELECT inside
`_check_and_finalize_verification`, so the finalize check sees only the
previously committed votes — `db.votes` without the vote being cast; user
and reading mutations act on session-held objects and are visible.  On
success the committed state is the finalized state plus the new vote row.
Every raise precedes the first mutation, so `Except.error` leaves the
database unchanged. -/
def castVote (db : DB) (rid vid : Nat) (vd : VoteCreate) : Except VoteError DB :=
  if !(validVotes.contains vd.vote) then
    .error .invalidVote
  else if vd.vote == "incorrect" && suggestedMissing vd.suggestedValue then
    .error .missingSuggestedValue
  else
    match findReading db rid with
    | none => .error .readingNotFound
    | some reading =>
      if reading.userId == vid then .error .cannotVerifyOwnReading
      else if hasVoted db rid vid then .error .alreadyVoted
      else
        let newVote : VoteT :=
          { readingId := rid
            verifierId := vid
            vote := vd.vote
            suggestedValue := vd.suggestedValue
            verifierTrustScore := (findUser db vid).map (fun u => u.trustScore) }
        let db2 : DB :=
          { db with users := updateUser db.users vid (fun u =>
              { u with verificationsPerformed := u.verificationsPerformed + 1,
                       xp := u.xp + XP_FOR_VERIFICATION }) }
        let db3 : DB := checkAndFinalize db2 rid
        .ok { db3 with votes := db3.votes ++ [newVote] }

/-- The transactional effect of one call to the vote endpoint: the committed
state on success, the untouched state on a raise (the raise aborts the
request before any mutation is flushed). -/
def castVoteTxn (db : DB) (rid vid : Nat) (vd : VoteCreate) : DB :=
  match castVote db rid vid vd with
  | .ok db2 => db2
  | .error _ => db

/-! ## Verification queue selector (`verify.py`, `get_verification_queue`) -/

/-- The WHERE clause plus the inner `JOIN meters` and the optional
`meter_type` filter of the queue query (`verify.py` lines 117–135). -/
def eligibleForQueue (db : DB) (vid : Nat) (meterTypeFilter : Option String)
    (r : ReadingT) : Bool :=
  (match findMeter db r.meterId with
   | none => false
   | some m =>
       match meterTypeFilter with
       | none => true
       | some t => m.meterType == t)
  && r.userId != vid
  && !(hasVoted db r.id vid)
  && r.verificationStatus == "pending"
  && decide (voteCount db r.id < VOTES_REQUIRED)

/-- Does `a` sort before `b` in the queue ordering: vote count descending,
then confidence descending (`verify.py` lines 139–142)? -/
def queueBefore (db : DB) (a b : ReadingT) : Bool :=
  decide (voteCount db b.id < voteCount db a.id)
  || (voteCount db a.id == voteCount db b.id && decide (b.confidence ≤ a.confidence))

/-- Insert into a list sorted by `le`. -/
def insertByRank (le : ReadingT → ReadingT → Bool) (x : ReadingT) :
    List ReadingT → List ReadingT
  | [] => [x]
  | y :: ys => if le x y then x :: y :: ys else y :: insertByRank le x ys

/-- Insertion sort by `le`. -/
def sortByRank (le : ReadingT → ReadingT → Bool) : List ReadingT → List ReadingT
  | [] => []
  | x :: xs => insertByRank le x (sortByRank le xs)

/-- `get_verification_queue` (`verify.py` lines 84–196), reduced to the list
of readings it returns: filter by eligibility, order by (vote count desc,
confidence desc), apply the page limit. -/
def getVerificationQueue (db : DB) (vid : Nat) (meterTypeFilter : Option String)
    (limit : Nat) : List ReadingT :=
  (sortByRank (queueBefore db)
      (db.readings.filter (eligibleForQueue db vid meterTypeFilter))).take limit

/-! ## Plausibility filter (`readings.py`, `create_reading` lines 97–113) -/

/-- The data of the most recent prior reading of the meter that
`create_reading` consults: its nullable numeric value, and the elapsed time
`(utcnow - prev.captured_at)` expressed in days. -/
structure PrevReading where
  numericValue : Option ℚ
  elapsedDays : ℚ
deriving Repr, DecidableEq

/-- The four columns the usage-calculation block of `create_reading` stores
on the new reading (`readings.py` lines 134–137). -/
structure UsageResult where
  usageSinceLast : Option ℚ
  daysSinceLast : Option ℚ
  flaggedForReview : Bool
  flagReason : Option String
deriving Repr, DecidableEq

/-- The usage-calculation block of `create_reading` (`readings.py` lines
97–113).  The guard is the Python truthiness test
`if prev_reading and reading.numeric_value and prev_reading.numeric_value:`,
under which a numeric value of `0` behaves like an absent one.  The
anomaly branch stores the reason string `"Reading decreased from previous"`. -/
def computeUsage (numericValue : Option ℚ) (prev : Option PrevReading) : UsageResult :=
  match prev with
  | none =>
      { usageSinceLast := none, daysSinceLast := none,
        flaggedForReview := false, flagReason := none }
  | some p =>
      match numericValue, p.numericValue with
      | some nv, some pv =>
          if nv != 0 && pv != 0 then
            let usage := nv - pv
            if usage < 0 then
              { usageSinceLast := some usage, daysSinceLast := some p.elapsedDays,
                flaggedForReview := true,
                flagReason := some "Reading decreased from previous" }
            else
              { usageSinceLast := some usage, daysSinceLast := some p.elapsedDays,
                flaggedForReview := false, flagReason := none }
          else
            { usageSinceLast := none, daysSinceLast := none,
              flaggedForReview := false, flagReason := none }
      | _, _ =>
          { usageSinceLast := none, daysSinceLast := none,
            flaggedForReview := false, flagReason := none }

/-! ## Derived notions used by the theorems -/

/-- The net effect of the reputation loop on one user row: fold the loop body
over the votes, applying `repVoteEffect` whenever the vote targets this row.
(`applyReputationUpdates` acts on each row independently; see
`applyReputationUpdates_eq_map`.) -/
def perUserRep (winningVote : String) (votes : List VoteT) (u : UserT) : UserT :=
  votes.foldl (fun acc v => if acc.id == v.verifierId then repVoteEffect winningVote v acc else acc) u

/-- A trust score inside the documented range. -/
def InBounds (u : UserT) : Prop :=
  0 ≤ u.trustScore ∧ u.trustScore ≤ 100

/-- The trust-score bound invariant over a whole database state. -/
def TrustOK (db : DB) : Prop :=
  ∀ u ∈ db.users, InBounds u

/-! ## Concrete database states used as witnesses and counterexamples -/

/-- A pending reading (id 10, owned by user 0) carrying exactly the votes of
the spec's threshold example: two `correct` and one `incorrect`, all with
snapshotted trust 50. -/
def dbTwoOne : DB :=
  { users := [⟨0, 50, 0, 0, 0⟩, ⟨1, 50, 0, 0, 0⟩, ⟨2, 50, 0, 0, 0⟩, ⟨3, 50, 0, 0, 0⟩],
    meters := [⟨1, "electric"⟩],
    readings := [⟨10, 1, 0, 1, "pending", none⟩],
    votes := [⟨10, 1, "correct", none, some 50⟩, ⟨10, 2, "correct", none, some 50⟩,
              ⟨10, 3, "incorrect", none, some 50⟩] }

/-- A pending reading whose three votes give a correct ratio of exactly
67/100 (weights 67 / 16 / 17, total 100): the inclusive-threshold case. -/
def dbAtThreshold : DB :=
  { users := [⟨0, 50, 0, 0, 0⟩, ⟨1, 67, 0, 0, 0⟩, ⟨2, 16, 0, 0, 0⟩, ⟨3, 17, 0, 0, 0⟩],
    meters := [⟨1, "electric"⟩],
    readings := [⟨10, 1, 0, 1, "pending", none⟩],
    votes := [⟨10, 1, "correct", none, some 67⟩, ⟨10, 2, "incorrect", some "123", some 16⟩,
              ⟨10, 3, "unclear", none, some 17⟩] }

/-- A pending reading with six votes split 3 `correct` / 3 `incorrect`, all
with snapshotted trust 50: the dispute-fallback scenario. -/
def dbSplitSix : DB :=
  { users := [⟨0, 50, 0, 0, 0⟩, ⟨1, 50, 0, 0, 0⟩, ⟨2, 50, 0, 0, 0⟩, ⟨3, 50, 0, 0, 0⟩,
              ⟨4, 50, 0, 0, 0⟩, ⟨5, 50, 0, 0, 0⟩, ⟨6, 50, 0, 0, 0⟩],
    meters := [⟨1, "electric"⟩],
    readings := [⟨10, 1, 0, 1, "pending", none⟩],
    votes := [⟨10, 1, "correct", none, some 50⟩, ⟨10, 2, "correct", none, some 50⟩,
              ⟨10, 3, "correct", none, some 50⟩, ⟨10, 4, "incorrect", some "1", some 50⟩,
              ⟨10, 5, "incorrect", some "2", some 50⟩, ⟨10, 6, "incorrect", some "3", some 50⟩] }

/-- A reading that has already been finalized `verified` (three `correct`
votes, owner and voters already credited), before a fourth user votes. -/
def dbTerminal : DB :=
  { users := [⟨0, 50, 5, 0, 1⟩, ⟨1, 51, 15, 1, 0⟩, ⟨2, 51, 15, 1, 0⟩, ⟨3, 51, 15, 1, 0⟩,
              ⟨4, 50, 0, 0, 0⟩],
    meters := [⟨1, "electric"⟩],
    readings := [⟨10, 1, 0, 1, "verified", some 1⟩],
    votes := [⟨10, 1, "correct", none, some 50⟩, ⟨10, 2, "correct", none, some 50⟩,
              ⟨10, 3, "correct", none, some 50⟩] }

/-- The state over which the finalize check runs when user 4 casts a fourth
`correct` vote on the terminal reading of `dbTerminal`: the verifier's
stats are already bumped (session-held object), but the new vote row is
still pending and unflushed (`autoflush=False`), so the vote table holds
only the three committed votes. -/
def dbTerminalMid : DB :=
  { users := [⟨0, 50, 5, 0, 1⟩, ⟨1, 51, 15, 1, 0⟩, ⟨2, 51, 15, 1, 0⟩, ⟨3, 51, 15, 1, 0⟩,
              ⟨4, 50, 5, 1, 0⟩],
    meters := [⟨1, "electric"⟩],
    readings := [⟨10, 1, 0, 1, "verified", some 1⟩],
    votes := [⟨10, 1, "correct", none, some 50⟩, ⟨10, 2, "correct", none, some 50⟩,
              ⟨10, 3, "correct", none, some 50⟩] }

/-- A pending reading with two votes: below the quorum of three. -/
def dbTwoVotes : DB :=
  { users := [⟨0, 50, 0, 0, 0⟩, ⟨1, 50, 0, 0, 0⟩, ⟨2, 50, 0, 0, 0⟩],
    meters := [⟨1, "electric"⟩],
    readings := [⟨10, 1, 0, 1, "pending", none⟩],
    votes := [⟨10, 1, "correct", none, some 50⟩, ⟨10, 2, "correct", none, some 50⟩] }

/-- A state with one eligible reading (id 10, owned by user 2), one reading
owned by the requesting verifier (id 11) and one already-verified reading
(id 12), for exercising the queue. -/
def dbQueue : DB :=
  { users := [⟨1, 50, 0, 0, 0⟩, ⟨2, 50, 0, 0, 0⟩],
    meters := [⟨1, "electric"⟩],
    readings := [⟨10, 1, 2, 1, "pending", none⟩, ⟨11, 1, 1, 1, "pending", none⟩,
                 ⟨12, 1, 2, 1, "verified", none⟩],
    votes := [] }

/-! ## General lemmas about the embedding -/

/-- Unfolding equation for `checkAndFinalize`. -/
theorem checkAndFinalize_def (db : DB) (rid : Nat) :
    checkAndFinalize db rid =
      if (votesFor db rid).length < VOTES_REQUIRED then db
      else if totalWeight (votesFor db rid) == 0 then db
      else
        match finalizeDecision (votesFor db rid) with
        | none => db
        | some (st, w) => applyFinalization db rid (votesFor db rid) st w := rfl

/-- A vote with snapshotted trust 50 weighs 50. -/
theorem voteWeight_of_snapshot50 (v : VoteT) (h : v.verifierTrustScore = some 50) :
    voteWeight v = 50 := by
  unfold voteWeight
  rw [h]
  norm_num

/-- The total weight of votes all snapshotted at trust 50 is `50 * count`. -/
theorem totalWeight_const50 (l : List VoteT) (h : ∀ v ∈ l, v.verifierTrustScore = some 50) :
    totalWeight l = 50 * (l.length : Int) := by
  induction l with
  | nil => rfl
  | cons v t ih =>
      have hv : voteWeight v = 50 := voteWeight_of_snapshot50 v (h v (by simp))
      have ht : ∀ x ∈ t, x.verifierTrustScore = some 50 := fun x hx => h x (by simp [hx])
      unfold totalWeight at ih ⊢
      rw [List.map_cons, List.sum_cons, hv, ih ht, List.length_cons]
      push_cast
      ring

/-- The weighted tally of a side, when every vote is snapshotted at trust 50,
is `50 *` the number of votes on that side. -/
theorem weightedFor_const50 (s : String) (l : List VoteT)
    (h : ∀ v ∈ l, v.verifierTrustScore = some 50) :
    weightedFor s l = 50 * (((l.filter (fun v => v.vote == s)).length : Int)) :=
  totalWeight_const50 (l.filter (fun v => v.vote == s))
    (fun v hv => h v (List.mem_of_mem_filter hv))

/-- When the decision ladder yields `none`, the finalize check is a no-op,
whatever the guard conditions evaluated to. -/
theorem checkAndFinalize_of_decision_none (db : DB) (rid : Nat)
    (hd : finalizeDecision (votesFor db rid) = none) :
    checkAndFinalize db rid = db := by
  rw [checkAndFinalize_def]
  split
  · rfl
  · split
    · rfl
    · rw [hd]

/-- When the quorum and nonzero-weight guards pass and the decision ladder
fires, the finalize check reduces to the mutation block. -/
theorem checkAndFinalize_of_decision_some (db : DB) (rid : Nat) (st : String)
    (w : Option String)
    (hq : ¬ (votesFor db rid).length < VOTES_REQUIRED)
    (hw : totalWeight (votesFor db rid) ≠ 0)
    (hd : finalizeDecision (votesFor db rid) = some (st, w)) :
    checkAndFinalize db rid = applyFinalization db rid (votesFor db rid) st w := by
  rw [checkAndFinalize_def, if_neg hq, if_neg (by simp [hw]), hd]

/-- `find?` by id over an id-preserving update-by-id is the update of the
original `find?`. -/
theorem find?_updateReadingRow (readings : List ReadingT) (rid : Nat)
    (f : ReadingT → ReadingT) (hid : ∀ r, (f r).id = r.id) :
    (updateReadingRow readings rid f).find? (fun r => r.id == rid)
      = (readings.find? (fun r => r.id == rid)).map f := by
  induction readings with
  | nil => rfl
  | cons a t ih =>
      unfold updateReadingRow at ih ⊢
      rw [List.map_cons]
      by_cases ha : (a.id == rid) = true
      · have hfa : ((f a).id == rid) = true := by rw [hid a]; exact ha
        rw [if_pos ha,
          @List.find?_cons_of_pos ReadingT (fun r => r.id == rid) (f a) _ hfa,
          @List.find?_cons_of_pos ReadingT (fun r => r.id == rid) a t ha]
        rfl
      · rw [if_neg ha,
          @List.find?_cons_of_neg ReadingT (fun r => r.id == rid) a _ ha,
          @List.find?_cons_of_neg ReadingT (fun r => r.id == rid) a t ha]
        exact ih

/-- Looking up the finalized reading: the mutation block rewrote exactly its
status and score. -/
theorem findReading_applyFinalization (db : DB) (rid : Nat) (votes : List VoteT)
    (st : String) (w : Option String) :
    findReading (applyFinalization db rid votes st w) rid
      = (findReading db rid).map (fun r =>
          { r with verificationStatus := st,
                   verificationScore :=
                     some (max (ratioCorrect votes) (ratioIncorrect votes)) }) := by
  unfold findReading applyFinalization
  exact find?_updateReadingRow db.readings rid _ (fun r => rfl)

/-- The decision ladder on `dbTwoOne`: `2/3 < 0.67`, so no branch fires. -/
theorem finalizeDecision_dbTwoOne : finalizeDecision (votesFor dbTwoOne 10) = none := by
  have hwc : weightedFor "correct" (votesFor dbTwoOne 10) = 100 := by decide
  have hwi : weightedFor "incorrect" (votesFor dbTwoOne 10) = 50 := by decide
  have htw : totalWeight (votesFor dbTwoOne 10) = 150 := by decide
  have hlen : (votesFor dbTwoOne 10).length = 3 := by decide
  unfold finalizeDecision ratioCorrect ratioIncorrect
  rw [hwc, hwi, htw, hlen]
  norm_num [CONSENSUS_THRESHOLD, VOTES_REQUIRED]

/-- The decision ladder on `dbAtThreshold`: the correct ratio is exactly
`67/100`, the comparison is inclusive, so the reading verifies. -/
theorem finalizeDecision_dbAtThreshold :
    finalizeDecision (votesFor dbAtThreshold 10) = some ("verified", some "correct") := by
  have hwc : weightedFor "correct" (votesFor dbAtThreshold 10) = 67 := by decide
  have htw : totalWeight (votesFor dbAtThreshold 10) = 100 := by decide
  unfold finalizeDecision ratioCorrect
  rw [hwc, htw]
  norm_num [CONSENSUS_THRESHOLD]

/-- The status `dbAtThreshold` reaches through the finalize check. -/
theorem dbAtThreshold_status :
    (findReading (checkAndFinalize dbAtThreshold 10) 10).map (fun r => r.verificationStatus)
      = some "verified" := by
  rw [checkAndFinalize_of_decision_some dbAtThreshold 10 "verified" (some "correct")
      (by decide) (by decide) finalizeDecision_dbAtThreshold,
    findReading_applyFinalization,
    show findReading dbAtThreshold 10 = some ⟨10, 1, 0, 1, "pending", none⟩ from by decide]
  rfl

/-! ## C5 — quorum gate -/

/-- C5: with fewer than `VOTES_REQUIRED` votes on the reading, the finalize
check returns without touching anything: the reading's status and
verification score, and every user's reputation state, are exactly as
before. -/
theorem finalize_quorum_gate (db : DB) (rid : Nat)
    (h : (votesFor db rid).length < VOTES_REQUIRED) :
    checkAndFinalize db rid = db := by
  rw [checkAndFinalize_def, if_pos h]

/-- Witness for C5: a pending reading with two votes is left untouched. -/
theorem finalize_quorum_gate_witness :
    (votesFor dbTwoVotes 10).length < VOTES_REQUIRED ∧
      checkAndFinalize dbTwoVotes 10 = dbTwoVotes :=
  ⟨by decide, finalize_quorum_gate dbTwoVotes 10 (by decide)⟩

/-! ## C2 — the spec's threshold example -/

/-- C2 counterexample: on the claimed input — two `correct` votes of trust 50
and one `incorrect` vote of trust 50 — the finalize check does NOT verify
the reading: `100/150 = 2/3 < 0.67`, no branch of the decision ladder fires,
and the reading stays `pending` with the database unchanged. -/
theorem threshold_example_not_verified :
    checkAndFinalize dbTwoOne 10 = dbTwoOne ∧
      (findReading (checkAndFinalize dbTwoOne 10) 10).map (fun r => r.verificationStatus)
        ≠ some "verified" := by
  have h := checkAndFinalize_of_decision_none dbTwoOne 10 finalizeDecision_dbTwoOne
  refine ⟨h, ?_⟩
  rw [h]
  decide

/-- C2 amended: with exactly three votes — two `correct` (trust 50) and one
`incorrect` (trust 50) — the finalize check leaves the database unchanged
(the reading remains pending), because `correct_ratio = 100/150 = 2/3` is
strictly below the inclusive `0.67` threshold; the threshold comparison is
inclusive, as the at-threshold state `dbAtThreshold` (ratio exactly
`67/100`) becoming `verified` shows. -/
theorem threshold_example_stays_pending (db : DB) (rid : Nat)
    (hlen : (votesFor db rid).length = 3)
    (hc : ((votesFor db rid).filter (fun v => v.vote == "correct")).length = 2)
    (hi : ((votesFor db rid).filter (fun v => v.vote == "incorrect")).length = 1)
    (ht : ∀ v ∈ votesFor db rid, v.verifierTrustScore = some 50) :
    checkAndFinalize db rid = db ∧
      (findReading (checkAndFinalize dbAtThreshold 10) 10).map (fun r => r.verificationStatus)
        = some "verified" := by
  have htw : totalWeight (votesFor db rid) = 150 := by
    rw [totalWeight_const50 _ ht, hlen]; norm_num
  have hwc : weightedFor "correct" (votesFor db rid) = 100 := by
    rw [weightedFor_const50 _ _ ht, hc]; norm_num
  have hwi : weightedFor "incorrect" (votesFor db rid) = 50 := by
    rw [weightedFor_const50 _ _ ht, hi]; norm_num
  have hrc : ratioCorrect (votesFor db rid) = 2 / 3 := by
    unfold ratioCorrect; rw [hwc, htw]; norm_num
  have hri : ratioIncorrect (votesFor db rid) = 1 / 3 := by
    unfold ratioIncorrect; rw [hwi, htw]; norm_num
  have hd : finalizeDecision (votesFor db rid) = none := by
    unfold finalizeDecision
    rw [hrc, hri, hlen]
    norm_num [CONSENSUS_THRESHOLD, VOTES_REQUIRED]
  exact ⟨checkAndFinalize_of_decision_none db rid hd, dbAtThreshold_status⟩

/-- Witness for the amended C2: the concrete two-correct/one-incorrect state
satisfies the hypotheses and is left unchanged. -/
theorem threshold_example_stays_pending_witness :
    checkAndFinalize dbTwoOne 10 = dbTwoOne ∧
      (findReading (checkAndFinalize dbAtThreshold 10) 10).map (fun r => r.verificationStatus)
        = some "verified" :=
  threshold_example_stays_pending dbTwoOne 10 (by decide) (by decide) (by decide) (by decide)

/-! ## C6 — dispute fallback -/

/-- C6: six votes split 3 `correct` / 3 `incorrect`, all snapshotted at trust
50, on a pending reading: both ratios are `1/2 < 0.67`, the count reaches
`2 × VOTES_REQUIRED`, the status becomes `disputed`, and — there being no
winning side — no user row (trust score or XP) is touched. -/
theorem dispute_fallback_no_reputation_change (db : DB) (rid : Nat) (r : ReadingT)
    (hr : findReading db rid = some r)
    (_hpend : r.verificationStatus = "pending")
    (hlen : (votesFor db rid).length = 6)
    (hc : ((votesFor db rid).filter (fun v => v.vote == "correct")).length = 3)
    (hi : ((votesFor db rid).filter (fun v => v.vote == "incorrect")).length = 3)
    (ht : ∀ v ∈ votesFor db rid, v.verifierTrustScore = some 50) :
    (findReading (checkAndFinalize db rid) rid).map (fun x => x.verificationStatus)
        = some "disputed" ∧
      (checkAndFinalize db rid).users = db.users := by
  have htw : totalWeight (votesFor db rid) = 300 := by
    rw [totalWeight_const50 _ ht, hlen]; norm_num
  have hwc : weightedFor "correct" (votesFor db rid) = 150 := by
    rw [weightedFor_const50 _ _ ht, hc]; norm_num
  have hwi : weightedFor "incorrect" (votesFor db rid) = 150 := by
    rw [weightedFor_const50 _ _ ht, hi]; norm_num
  have hrc : ratioCorrect (votesFor db rid) = 1 / 2 := by
    unfold ratioCorrect; rw [hwc, htw]; norm_num
  have hri : ratioIncorrect (votesFor db rid) = 1 / 2 := by
    unfold ratioIncorrect; rw [hwi, htw]; norm_num
  have hd : finalizeDecision (votesFor db rid) = some ("disputed", none) := by
    unfold finalizeDecision
    rw [hrc, hri, hlen]
    norm_num [CONSENSUS_THRESHOLD, VOTES_REQUIRED]
  have hq : ¬ (votesFor db rid).length < VOTES_REQUIRED := by rw [hlen]; decide
  have hw : totalWeight (votesFor db rid) ≠ 0 := by rw [htw]; decide
  rw [checkAndFinalize_of_decision_some db rid "disputed" none hq hw hd]
  constructor
  · rw [findReading_applyFinalization, hr]
    rfl
  · unfold applyFinalization
    rw [hr]
    rfl

/-- Witness for C6 on the concrete six-vote split state. -/
theorem dispute_fallback_no_reputation_change_witness :
    (findReading (checkAndFinalize dbSplitSix 10) 10).map (fun x => x.verificationStatus)
        = some "disputed" ∧
      (checkAndFinalize dbSplitSix 10).users = dbSplitSix.users :=
  dispute_fallback_no_reputation_change dbSplitSix 10 ⟨10, 1, 0, 1, "pending", none⟩
    (by decide) rfl (by decide) (by decide) (by decide) (by decide)

/-! ## C1 — re-finalize on an already-terminal reading -/

/-- The decision ladder on `dbTerminalMid` (the three committed `correct`
votes of trust 50): ratio `1 ≥ 0.67`, so the ladder fires `verified`
again. -/
theorem finalizeDecision_dbTerminalMid :
    finalizeDecision (votesFor dbTerminalMid 10) = some ("verified", some "correct") := by
  have hwc : weightedFor "correct" (votesFor dbTerminalMid 10) = 150 := by decide
  have htw : totalWeight (votesFor dbTerminalMid 10) = 150 := by decide
  unfold finalizeDecision ratioCorrect
  rw [hwc, htw]
  norm_num [CONSENSUS_THRESHOLD]

/-- C1 fails on the code: reading 10 of `dbTerminal` is already `verified`
(its three `correct` voters hold trust 51 and XP 15, the owner was already
credited), yet a fourth `correct` vote by user 4 is accepted and the
finalize check runs again.  With `autoflush=False` the check sees only the
three committed votes (ratio 1, `verified` again) and re-applies
reputation: voters 1–3 move to trust 52 and XP 25, the owner's
`verified_readings` and XP are double-counted (1→2, 5→10), while user 4 —
whose vote the finalize never saw — keeps trust 50 with only the cast
bump (XP 5, one verification performed), and the new vote row is
committed. -/
theorem refinalize_terminal_changes_state :
    (findReading dbTerminal 10).map (fun r => r.verificationStatus) = some "verified" ∧
      castVote dbTerminal 10 4 ⟨"correct", none⟩
        = .ok { checkAndFinalize dbTerminalMid 10 with
                votes := (checkAndFinalize dbTerminalMid 10).votes
                  ++ [⟨10, 4, "correct", none, some 50⟩] } ∧
      (checkAndFinalize dbTerminalMid 10).users
        = [⟨0, 50, 10, 0, 2⟩, ⟨1, 52, 25, 1, 0⟩, ⟨2, 52, 25, 1, 0⟩, ⟨3, 52, 25, 1, 0⟩,
           ⟨4, 50, 5, 1, 0⟩] ∧
      (checkAndFinalize dbTerminalMid 10).votes = dbTerminal.votes ∧
      findUser dbTerminal 1 = some ⟨1, 51, 15, 1, 0⟩ := by
  have hfin := checkAndFinalize_of_decision_some dbTerminalMid 10 "verified" (some "correct")
    (by decide) (by decide) finalizeDecision_dbTerminalMid
  refine ⟨by decide, rfl, ?_, ?_, by decide⟩
  · rw [hfin]
    decide
  · rw [hfin]
    rfl

/-! ## C3 — reputation fan-out -/

/-- The reputation loop body never changes a user's id. -/
theorem repVoteEffect_id (w : String) (v : VoteT) (u : UserT) :
    (repVoteEffect w v u).id = u.id := by
  unfold repVoteEffect
  split
  · rfl
  · split
    · rfl
    · rfl

/-- One loop iteration acts on every user row independently. -/
theorem applyVoteReputation_eq_map (w : String) (users : List UserT) (v : VoteT) :
    applyVoteReputation w users v
      = users.map (fun u => if u.id == v.verifierId then repVoteEffect w v u else u) := by
  unfold applyVoteReputation updateUser
  by_cases h1 : (v.vote == w) = true
  · rw [if_pos h1]
    congr 1
    funext u
    by_cases h2 : (u.id == v.verifierId) = true <;> simp [h2, repVoteEffect, h1]
  · by_cases h3 : (v.vote != "unclear") = true
    · rw [if_neg h1, if_pos h3]
      congr 1
      funext u
      by_cases h2 : (u.id == v.verifierId) = true <;> simp [h2, repVoteEffect, h1, h3]
    · rw [if_neg h1, if_neg h3]
      induction users with
      | nil => rfl
      | cons a t ih =>
          rw [List.map_cons, ← ih]
          congr 1
          by_cases h2 : (a.id == v.verifierId) = true <;> simp [h2, repVoteEffect, h1, h3]

/-- The whole reputation fan-out acts on every user row independently:
it is the per-row fold `perUserRep` mapped over the table. -/
theorem applyReputationUpdates_eq_map (w : String) (votes : List VoteT)
    (users : List UserT) :
    applyReputationUpdates w votes users = users.map (perUserRep w votes) := by
  induction votes generalizing users with
  | nil =>
      unfold applyReputationUpdates perUserRep
      simp
  | cons v t ih =>
      unfold applyReputationUpdates at ih ⊢
      rw [List.foldl_cons, ih, applyVoteReputation_eq_map, List.map_map]
      congr 1

/-- A row targeted by none of the votes is left unchanged by the per-row
fold. -/
theorem perUserRep_of_no_vote (w : String) (votes : List VoteT) (acc : UserT)
    (uid : Nat) (hacc : acc.id = uid)
    (h : ∀ v ∈ votes, (uid == v.verifierId) = false) :
    perUserRep w votes acc = acc := by
  induction votes generalizing acc with
  | nil => rfl
  | cons v t ih =>
      unfold perUserRep
      rw [List.foldl_cons, if_neg (by rw [hacc]; simp [h v (by simp)])]
      exact ih acc hacc (fun x hx => h x (by simp [hx]))

/-- A row targeted by exactly one of the votes receives exactly that vote's
loop-body effect. -/
theorem perUserRep_of_single_vote (w : String) (votes : List VoteT) (u : UserT)
    (v0 : VoteT)
    (hv : votes.filter (fun v => u.id == v.verifierId) = [v0]) :
    perUserRep w votes u = repVoteEffect w v0 u := by
  induction votes with
  | nil => simp at hv
  | cons v t ih =>
      by_cases hm : (u.id == v.verifierId) = true
      · simp only [List.filter_cons, hm, if_true, List.cons.injEq] at hv
        obtain ⟨rfl, h2⟩ := hv
        unfold perUserRep
        rw [List.foldl_cons, if_pos hm]
        exact perUserRep_of_no_vote w t (repVoteEffect w v u) u.id (repVoteEffect_id w v u)
          (fun x hx => by
            have hx' := List.filter_eq_nil_iff.1 h2 x hx
            simpa using hx')
      · simp only [List.filter_cons, hm, if_false] at hv
        unfold perUserRep
        rw [List.foldl_cons, if_neg hm]
        exact ih hv

/-- C3: after a finalization that decides `verified` (winning side
`correct`), a voter `u` (not the reading's owner) with a single vote `v0` on
the reading ends up, in the updated user table, with: trust `+1` capped at
100 and XP `+10` if `v0` was `correct`; trust `-1` floored at 0 and
unchanged XP if `v0` was `incorrect`; and entirely unchanged if `v0` was
`unclear`. -/
theorem reputation_fanout_after_verified (db : DB) (rid : Nat) (r : ReadingT)
    (u : UserT) (v0 : VoteT)
    (hq : ¬ (votesFor db rid).length < VOTES_REQUIRED)
    (hw : totalWeight (votesFor db rid) ≠ 0)
    (hd : finalizeDecision (votesFor db rid) = some ("verified", some "correct"))
    (hr : findReading db rid = some r)
    (hu : u ∈ db.users)
    (hown : u.id ≠ r.userId)
    (hv : (votesFor db rid).filter (fun v => u.id == v.verifierId) = [v0]) :
    (v0.vote = "correct" →
        { u with xp := u.xp + XP_BONUS_CONSENSUS,
                 trustScore := min 100 (u.trustScore + 1) }
          ∈ (checkAndFinalize db rid).users) ∧
      (v0.vote = "incorrect" →
        { u with trustScore := max 0 (u.trustScore - 1) }
          ∈ (checkAndFinalize db rid).users) ∧
      (v0.vote = "unclear" → u ∈ (checkAndFinalize db rid).users) := by
  have hfin := checkAndFinalize_of_decision_some db rid "verified" (some "correct") hq hw hd
  have husers : (checkAndFinalize db rid).users
      = applyReputationUpdates "correct" (votesFor db rid)
          (updateUser db.users r.userId (fun x =>
            { x with verifiedReadings := x.verifiedReadings + 1, xp := x.xp + 5 })) := by
    rw [hfin]
    unfold applyFinalization
    rw [hr]
    rfl
  have hu1 : u ∈ updateUser db.users r.userId (fun x =>
      { x with verifiedReadings := x.verifiedReadings + 1, xp := x.xp + 5 }) := by
    unfold updateUser
    refine List.mem_map.2 ⟨u, hu, ?_⟩
    simp [hown]
  have hmem : perUserRep "correct" (votesFor db rid) u ∈ (checkAndFinalize db rid).users := by
    rw [husers, applyReputationUpdates_eq_map]
    exact List.mem_map_of_mem _ hu1
  rw [perUserRep_of_single_vote "correct" _ u v0 hv] at hmem
  refine ⟨fun hc => ?_, fun hc => ?_, fun hc => ?_⟩
  · have heff : repVoteEffect "correct" v0 u
        = { u with xp := u.xp + XP_BONUS_CONSENSUS,
                   trustScore := min 100 (u.trustScore + 1) } := by
      unfold repVoteEffect
      rw [hc]
      rfl
    rwa [heff] at hmem
  · have heff : repVoteEffect "correct" v0 u
        = { u with trustScore := max 0 (u.trustScore - 1) } := by
      unfold repVoteEffect
      rw [hc]
      rfl
    rwa [heff] at hmem
  · have heff : repVoteEffect "correct" v0 u = u := by
      unfold repVoteEffect
      rw [hc]
      rfl
    rwa [heff] at hmem

/-- Witness for C3: in the at-threshold state, the `correct` voter (trust 67,
XP 0) ends up at trust 68 and XP 10 after finalization. -/
theorem reputation_fanout_after_verified_witness :
    ({ id := 1, trustScore := 68, xp := 10, verificationsPerformed := 0,
        verifiedReadings := 0 } : UserT) ∈ (checkAndFinalize dbAtThreshold 10).users := by
  have h := (reputation_fanout_after_verified dbAtThreshold 10
      ⟨10, 1, 0, 1, "pending", none⟩ ⟨1, 67, 0, 0, 0⟩ ⟨10, 1, "correct", none, some 67⟩
      (by decide) (by decide) finalizeDecision_dbAtThreshold (by decide) (by decide)
      (by decide) (by decide)).1 rfl
  exact h

/-! ## C4 — trust-score bound invariant -/

/-- Update-by-id preserves a rowwise predicate when the mutation does. -/
theorem updateUser_preserves (P : UserT → Prop) (users : List UserT) (uid : Nat)
    (f : UserT → UserT) (hf : ∀ x, P x → P (f x)) (h : ∀ x ∈ users, P x) :
    ∀ x ∈ updateUser users uid f, P x := by
  intro x hx
  unfold updateUser at hx
  rcases List.mem_map.1 hx with ⟨a, ha, rfl⟩
  by_cases hid : (a.id == uid) = true
  · rw [if_pos hid]
    exact hf a (h a ha)
  · rw [if_neg hid]
    exact h a ha

/-- One reputation-loop iteration keeps every trust score in `[0, 100]`:
the increment is capped by `min 100`, the decrement is floored by `max 0`. -/
theorem trustOK_applyVoteReputation (w : String) (users : List UserT) (v : VoteT)
    (h : ∀ x ∈ users, InBounds x) :
    ∀ x ∈ applyVoteReputation w users v, InBounds x := by
  unfold applyVoteReputation
  split
  · refine updateUser_preserves InBounds users v.verifierId _ ?_ h
    intro x hx
    obtain ⟨hx0, hx1⟩ := hx
    exact ⟨le_min (by norm_num) (by omega), min_le_left _ _⟩
  · split
    · refine updateUser_preserves InBounds users v.verifierId _ ?_ h
      intro x hx
      obtain ⟨hx0, hx1⟩ := hx
      exact ⟨le_max_left _ _, max_le (by norm_num) (by omega)⟩
    · exact h

/-- The whole reputation fan-out keeps every trust score in `[0, 100]`. -/
theorem trustOK_applyReputationUpdates (w : String) (votes : List VoteT)
    (users : List UserT) (h : ∀ x ∈ users, InBounds x) :
    ∀ x ∈ applyReputationUpdates w votes users, InBounds x := by
  induction votes generalizing users with
  | nil => exact h
  | cons v t ih => exact ih _ (trustOK_applyVoteReputation w users v h)

/-- The finalize mutation block keeps every trust score in `[0, 100]` (the
owner update touches only XP and the verified-readings counter). -/
theorem trustOK_applyFinalization (db : DB) (rid : Nat) (votes : List VoteT)
    (st : String) (w : Option String) (h : TrustOK db) :
    TrustOK (applyFinalization db rid votes st w) := by
  have h1 : ∀ x ∈ (match findReading db rid with
      | some r =>
          if st == "verified" then
            updateUser db.users r.userId (fun u =>
              { u with verifiedReadings := u.verifiedReadings + 1, xp := u.xp + 5 })
          else db.users
      | none => db.users), InBounds x := by
    cases findReading db rid with
    | none => exact h
    | some r =>
        dsimp only
        split
        · exact updateUser_preserves InBounds db.users r.userId _ (fun x hx => hx) h
        · exact h
  unfold TrustOK applyFinalization
  dsimp only
  cases w with
  | none => exact h1
  | some wv => exact trustOK_applyReputationUpdates wv votes _ h1

/-- The finalize check keeps every trust score in `[0, 100]`. -/
theorem trustOK_checkAndFinalize (db : DB) (rid : Nat) (h : TrustOK db) :
    TrustOK (checkAndFinalize db rid) := by
  rw [checkAndFinalize_def]
  split
  · exact h
  · split
    · exact h
    · split
      · exact h
      · exact trustOK_applyFinalization _ _ _ _ _ h

/-- C4: the trust score starts inside `[0, 100]` (column default 50), and
every core operation — the finalize check, and a successful vote cast
(which snapshots trust, bumps only XP and counters, then runs the finalize
check) — maps a state whose trust scores are all inside `[0, 100]` to a
state whose trust scores are all inside `[0, 100]`. -/
theorem trust_score_bounds :
    (0 ≤ defaultTrustScore ∧ defaultTrustScore ≤ 100) ∧
      (∀ db rid, TrustOK db → TrustOK (checkAndFinalize db rid)) ∧
      (∀ db rid vid vd db2, castVote db rid vid vd = Except.ok db2 →
        TrustOK db → TrustOK db2) := by
  refine ⟨by norm_num [defaultTrustScore], fun db rid h => trustOK_checkAndFinalize db rid h, ?_⟩
  intro db rid vid vd db2 hok h
  unfold castVote at hok
  split at hok
  · simp at hok
  · split at hok
    · simp at hok
    · split at hok
      · simp at hok
      · split at hok
        · simp at hok
        · split at hok
          · simp at hok
          · simp only [Except.ok.injEq] at hok
            subst hok
            apply trustOK_checkAndFinalize
            intro x hx
            exact updateUser_preserves InBounds db.users vid
              (fun u => { u with verificationsPerformed := u.verificationsPerformed + 1,
                                 xp := u.xp + XP_FOR_VERIFICATION })
              (fun y hy => hy) h x hx

/-- Witness for C4 at a concrete state with all trust scores at 50. -/
theorem trust_score_bounds_witness :
    TrustOK dbTwoVotes ∧ TrustOK (checkAndFinalize dbTwoVotes 10) := by
  have h : TrustOK dbTwoVotes := by
    unfold TrustOK InBounds
    decide
  exact ⟨h, trust_score_bounds.2.1 dbTwoVotes 10 h⟩

/-! ## C7 — vote-ledger error taxonomy -/

/-- C7: the five failure conditions of `castVote`, each with its own error
kind (in the source's check order: value validation, suggested-value
requirement, reading existence, self-vote rejection, duplicate-vote
rejection), the HTTP status each raise site uses, and the guarantee that
every failure leaves the database untouched (all checks precede the first
mutation). -/
theorem cast_vote_error_taxonomy (db : DB) (rid vid : Nat) (vd : VoteCreate) :
    (castVote db rid vid vd = .error .invalidVote ↔
        validVotes.contains vd.vote = false) ∧
      (castVote db rid vid vd = .error .missingSuggestedValue ↔
        validVotes.contains vd.vote = true ∧
          (vd.vote == "incorrect" && suggestedMissing vd.suggestedValue) = true) ∧
      (castVote db rid vid vd = .error .readingNotFound ↔
        validVotes.contains vd.vote = true ∧
          (vd.vote == "incorrect" && suggestedMissing vd.suggestedValue) = false ∧
          findReading db rid = none) ∧
      (castVote db rid vid vd = .error .cannotVerifyOwnReading ↔
        validVotes.contains vd.vote = true ∧
          (vd.vote == "incorrect" && suggestedMissing vd.suggestedValue) = false ∧
          ∃ r, findReading db rid = some r ∧ r.userId = vid) ∧
      (castVote db rid vid vd = .error .alreadyVoted ↔
        validVotes.contains vd.vote = true ∧
          (vd.vote == "incorrect" && suggestedMissing vd.suggestedValue) = false ∧
          (∃ r, findReading db rid = some r ∧ r.userId ≠ vid) ∧
          hasVoted db rid vid = true) ∧
      (∀ e, castVote db rid vid vd = .error e → castVoteTxn db rid vid vd = db) ∧
      (VoteError.invalidVote.httpStatus = 400 ∧
        VoteError.missingSuggestedValue.httpStatus = 400 ∧
        VoteError.readingNotFound.httpStatus = 404 ∧
        VoteError.cannotVerifyOwnReading.httpStatus = 403 ∧
        VoteError.alreadyVoted.httpStatus = 400) := by
  have htxn : ∀ e, castVote db rid vid vd = .error e → castVoteTxn db rid vid vd = db := by
    intro e he
    unfold castVoteTxn
    rw [he]
  have hmain : (castVote db rid vid vd = .error .invalidVote ↔
        validVotes.contains vd.vote = false) ∧
      (castVote db rid vid vd = .error .missingSuggestedValue ↔
        validVotes.contains vd.vote = true ∧
          (vd.vote == "incorrect" && suggestedMissing vd.suggestedValue) = true) ∧
      (castVote db rid vid vd = .error .readingNotFound ↔
        validVotes.contains vd.vote = true ∧
          (vd.vote == "incorrect" && suggestedMissing vd.suggestedValue) = false ∧
          findReading db rid = none) ∧
      (castVote db rid vid vd = .error .cannotVerifyOwnReading ↔
        validVotes.contains vd.vote = true ∧
          (vd.vote == "incorrect" && suggestedMissing vd.suggestedValue) = false ∧
          ∃ r, findReading db rid = some r ∧ r.userId = vid) ∧
      (castVote db rid vid vd = .error .alreadyVoted ↔
        validVotes.contains vd.vote = true ∧
          (vd.vote == "incorrect" && suggestedMissing vd.suggestedValue) = false ∧
          (∃ r, findReading db rid = some r ∧ r.userId ≠ vid) ∧
          hasVoted db rid vid = true) := by
    unfold castVote
    cases h1 : validVotes.contains vd.vote with
    | false => simp [h1]
    | true =>
        cases h2 : (vd.vote == "incorrect" && suggestedMissing vd.suggestedValue) with
        | true => simp [h1, h2]
        | false =>
            cases hfr : findReading db rid with
            | none => simp [h1, h2, hfr]
            | some r =>
                cases h4 : (r.userId == vid) with
                | true =>
                    have h4' : r.userId = vid := by simpa using h4
                    simp [h1, h2, hfr, h4, h4']
                | false =>
                    have h4' : ¬ r.userId = vid := by simpa using h4
                    cases h5 : hasVoted db rid vid with
                    | true => simp [h1, h2, hfr, h4, h4', h5]
                    | false => simp [h1, h2, hfr, h4, h4', h5]
  obtain ⟨hA, hB, hC, hD, hE⟩ := hmain
  exact ⟨hA, hB, hC, hD, hE, htxn, rfl, rfl, rfl, rfl, rfl⟩

/-- Witness for C7: all five failures, and the no-mutation guarantee, on a
concrete state (reading 10 is owned by user 0 and was voted on by user 1;
user 5 has not voted; reading 99 does not exist). -/
theorem cast_vote_error_taxonomy_witness :
    castVote dbTwoOne 10 5 ⟨"maybe", none⟩ = .error .invalidVote ∧
      castVote dbTwoOne 10 5 ⟨"incorrect", none⟩ = .error .missingSuggestedValue ∧
      castVote dbTwoOne 99 5 ⟨"correct", none⟩ = .error .readingNotFound ∧
      castVote dbTwoOne 10 0 ⟨"correct", none⟩ = .error .cannotVerifyOwnReading ∧
      castVote dbTwoOne 10 1 ⟨"correct", none⟩ = .error .alreadyVoted ∧
      castVoteTxn dbTwoOne 10 0 ⟨"correct", none⟩ = dbTwoOne :=
  ⟨(cast_vote_error_taxonomy dbTwoOne 10 5 ⟨"maybe", none⟩).1.mpr (by decide),
    (cast_vote_error_taxonomy dbTwoOne 10 5 ⟨"incorrect", none⟩).2.1.mpr (by decide),
    (cast_vote_error_taxonomy dbTwoOne 99 5 ⟨"correct", none⟩).2.2.1.mpr
      ⟨by decide, by decide, by decide⟩,
    (cast_vote_error_taxonomy dbTwoOne 10 0 ⟨"correct", none⟩).2.2.2.1.mpr
      ⟨by decide, by decide, ⟨⟨10, 1, 0, 1, "pending", none⟩, by decide, by decide⟩⟩,
    (cast_vote_error_taxonomy dbTwoOne 10 1 ⟨"correct", none⟩).2.2.2.2.1.mpr
      ⟨by decide, by decide, ⟨⟨10, 1, 0, 1, "pending", none⟩, by decide, by decide⟩, by decide⟩,
    (cast_vote_error_taxonomy dbTwoOne 10 0 ⟨"correct", none⟩).2.2.2.2.2.1
      .cannotVerifyOwnReading
      ((cast_vote_error_taxonomy dbTwoOne 10 0 ⟨"correct", none⟩).2.2.2.1.mpr
        ⟨by decide, by decide, ⟨⟨10, 1, 0, 1, "pending", none⟩, by decide, by decide⟩⟩)⟩

/-! ## C9 — queue exclusion -/

/-- Insertion keeps only the inserted element and the old elements. -/
theorem mem_of_mem_insertByRank (le : ReadingT → ReadingT → Bool) (a x : ReadingT)
    (l : List ReadingT) (h : x ∈ insertByRank le a l) : x = a ∨ x ∈ l := by
  induction l with
  | nil =>
      unfold insertByRank at h
      exact Or.inl (List.mem_singleton.1 h)
  | cons y ys ih =>
      unfold insertByRank at h
      split at h
      · rcases List.mem_cons.1 h with h' | h'
        · exact Or.inl h'
        · exact Or.inr h'
      · rcases List.mem_cons.1 h with h' | h'
        · exact Or.inr (h' ▸ List.mem_cons_self y ys)
        · rcases ih h' with h'' | h''
          · exact Or.inl h''
          · exact Or.inr (List.mem_cons_of_mem y h'')

/-- Sorting keeps only the old elements. -/
theorem mem_of_mem_sortByRank (le : ReadingT → ReadingT → Bool) (l : List ReadingT)
    (x : ReadingT) (h : x ∈ sortByRank le l) : x ∈ l := by
  induction l with
  | nil => simp [sortByRank] at h
  | cons a t ih =>
      unfold sortByRank at h
      rcases mem_of_mem_insertByRank le a x (sortByRank le t) h with h' | h'
      · exact h' ▸ List.mem_cons_self a t
      · exact List.mem_cons_of_mem a (ih h')

/-- C9: any reading the queue returns to verifier `vid` is not owned by
`vid`, has not been voted on by `vid`, is still `pending`, and carries fewer
than `VOTES_REQUIRED` votes. -/
theorem queue_exclusion (db : DB) (vid : Nat) (mt : Option String) (limit : Nat)
    (r : ReadingT) (hmem : r ∈ getVerificationQueue db vid mt limit) :
    r.userId ≠ vid ∧ hasVoted db r.id vid = false ∧
      r.verificationStatus = "pending" ∧ voteCount db r.id < VOTES_REQUIRED := by
  unfold getVerificationQueue at hmem
  have h1 : r ∈ sortByRank (queueBefore db)
      (db.readings.filter (eligibleForQueue db vid mt)) :=
    List.take_subset limit _ hmem
  have h2 := mem_of_mem_sortByRank _ _ _ h1
  have h3 := (List.mem_filter.1 h2).2
  unfold eligibleForQueue at h3
  simp only [Bool.and_eq_true] at h3
  obtain ⟨⟨⟨⟨_hmeter, hown⟩, hvote⟩, hstat⟩, hcount⟩ := h3
  refine ⟨?_, ?_, ?_, of_decide_eq_true hcount⟩
  · simpa using hown
  · simpa using hvote
  · simpa using hstat

/-- Witness for C9: in `dbQueue`, verifier 1 receives exactly the one
eligible reading, and the theorem's exclusions hold of it. -/
theorem queue_exclusion_witness :
    (⟨10, 1, 2, 1, "pending", none⟩ : ReadingT) ∈ getVerificationQueue dbQueue 1 none 10 ∧
      (⟨10, 1, 2, 1, "pending", none⟩ : ReadingT).userId ≠ 1 ∧
      hasVoted dbQueue 10 1 = false :=
  ⟨by decide,
    (queue_exclusion dbQueue 1 none 10 ⟨10, 1, 2, 1, "pending", none⟩ (by decide)).1,
    (queue_exclusion dbQueue 1 none 10 ⟨10, 1, 2, 1, "pending", none⟩ (by decide)).2.1⟩

/-! ## C8 — plausibility filter on a decreased reading -/

/-- C8 fails on the code in two respects: the stored flag reason is
`"Reading decreased from previous"` (capital R), not the claimed
`"reading decreased from previous"`; and a decreased reading whose new
numeric value is exactly `0` is not flagged at all (the Python truthiness
guard skips the computation). -/
theorem plausibility_claim_counterexample :
    (computeUsage (some 100) (some ⟨some 150, 1⟩)).flaggedForReview = true ∧
      (computeUsage (some 100) (some ⟨some 150, 1⟩)).flagReason
        ≠ some "reading decreased from previous" ∧
      (computeUsage (some 100) (some ⟨some 150, 1⟩)).flagReason
        = some "Reading decreased from previous" ∧
      (computeUsage (some 0) (some ⟨some 150, 1⟩)).flaggedForReview = false := by
  have h : computeUsage (some 100) (some ⟨some 150, 1⟩)
      = { usageSinceLast := some ((100 : ℚ) - 150), daysSinceLast := some 1,
          flaggedForReview := true,
          flagReason := some "Reading decreased from previous" } := by
    unfold computeUsage
    dsimp only
    rw [if_pos (by norm_num), if_pos (by norm_num)]
  refine ⟨by rw [h], by rw [h]; decide, by rw [h], ?_⟩
  rfl

/-- C8 amended: with a prior reading present and both numeric values present
and nonzero, a strictly decreased value yields
`usage_since_last = new - prior < 0`, the anomaly flag, and the reason
string `"Reading decreased from previous"`; with no prior reading, the
reading is stored non-anomalous with both usage fields null. -/
theorem plausibility_decrease_flagging (nv pv d : ℚ) (hnv : nv ≠ 0) (hpv : pv ≠ 0)
    (hlt : nv < pv) :
    computeUsage (some nv) (some ⟨some pv, d⟩)
      = { usageSinceLast := some (nv - pv), daysSinceLast := some d,
          flaggedForReview := true,
          flagReason := some "Reading decreased from previous" } ∧
      nv - pv < 0 ∧
      (∀ x : Option ℚ, computeUsage x none
        = { usageSinceLast := none, daysSinceLast := none,
            flaggedForReview := false, flagReason := none }) := by
  have hneg : nv - pv < 0 := sub_neg.2 hlt
  refine ⟨?_, hneg, fun x => rfl⟩
  unfold computeUsage
  dsimp only
  rw [if_pos (by simp [hnv, hpv]), if_pos hneg]

/-- Witness for the amended C8 at the spec's own example (prior 150, new
100). -/
theorem plausibility_decrease_flagging_witness :
    computeUsage (some 100) (some ⟨some 150, 1⟩)
      = { usageSinceLast := some ((100 : ℚ) - 150), daysSinceLast := some 1,
          flaggedForReview := true,
          flagReason := some "Reading decreased from previous" } ∧
      (100 : ℚ) - 150 < 0 ∧
      (∀ x : Option ℚ, computeUsage x none
        = { usageSinceLast := none, daysSinceLast := none,
            flaggedForReview := false, flagReason := none }) :=
  plausibility_decrease_flagging 100 150 1 (by norm_num) (by norm_num) (by norm_num)

/-! ## C10 — a numeric value of zero behaves like an absent one -/

/-- C10: if the new reading's numeric value is exactly `0`, or the prior
reading's numeric value is exactly `0`, the usage computation is skipped
entirely: both usage fields stay null and the reading is not flagged, even
though both numeric values are present and the value may have decreased. -/
theorem zero_numeric_value_skips_usage (nv : Option ℚ) (prev : Option PrevReading)
    (h : nv = some 0 ∨ ∃ p, prev = some p ∧ p.numericValue = some 0) :
    computeUsage nv prev
      = { usageSinceLast := none, daysSinceLast := none,
          flaggedForReview := false, flagReason := none } := by
  rcases h with rfl | ⟨p, rfl, hp⟩
  · cases prev with
    | none => rfl
    | some p =>
        cases hpn : p.numericValue with
        | none =>
            unfold computeUsage
            dsimp only
            rw [hpn]
        | some pv =>
            unfold computeUsage
            dsimp only
            rw [hpn]
            dsimp only
            rw [if_neg (by simp)]
  · cases nv with
    | none =>
        unfold computeUsage
        dsimp only
    | some nv =>
        unfold computeUsage
        dsimp only
        rw [hp]
        dsimp only
        rw [if_neg (by simp)]

/-- Witness for C10: a prior value of 150 followed by a reading of exactly
`0` — a decrease — is stored with null usage fields and no flag. -/
theorem zero_numeric_value_skips_usage_witness :
    computeUsage (some 0) (some ⟨some 150, 2⟩)
      = { usageSinceLast := none, daysSinceLast := none,
          flaggedForReview := false, flagReason := none } :=
  zero_numeric_value_skips_usage (some 0) (some ⟨some 150, 2⟩) (Or.inl rfl)

end MeterScience
